import Mathlib

/-!
Shallow embedding of the async-fuse-rs session/dispatch core
(src/session.rs and src/request.rs), on the non-macOS (Linux) platform
configuration. Machine integers are modelled as `Nat`; the `u64 -> i64`
cast used for file offsets is modelled explicitly. Stateful code is
modelled by explicit state passing over `SessionState`, and the side
effects of a dispatch (reply construction, bytes sent, filesystem
capability method invocations) are modelled as an explicit event trace.
-/

namespace AsyncFuse

/-- libc error code values on Linux, as referenced by the source. -/
def ENOENT : Nat := 2

/-- libc EINTR on Linux. -/
def EINTR : Nat := 4

/-- libc EIO on Linux. -/
def EIO : Nat := 5

/-- libc EAGAIN on Linux. -/
def EAGAIN : Nat := 11

/-- libc ENODEV on Linux. -/
def ENODEV : Nat := 19

/-- libc ENOSYS on Linux. -/
def ENOSYS : Nat := 38

/-- libc EPROTO on Linux. -/
def EPROTO : Nat := 71

/-- Modelled from the spec: capability flag constant of the external
`fuse-abi` crate (`FUSE_ASYNC_READ`, bit 0); async-read support is always
offered. -/
def FUSE_ASYNC_READ : Nat := 1

/-- Modelled from the spec: SetAttr validity bitmask bit for mode. -/
def FATTR_MODE : Nat := 1

/-- Modelled from the spec: SetAttr validity bitmask bit for uid. -/
def FATTR_UID : Nat := 2

/-- Modelled from the spec: SetAttr validity bitmask bit for gid. -/
def FATTR_GID : Nat := 4

/-- Modelled from the spec: SetAttr validity bitmask bit for size. -/
def FATTR_SIZE : Nat := 8

/-- Modelled from the spec: SetAttr validity bitmask bit for atime. -/
def FATTR_ATIME : Nat := 16

/-- Modelled from the spec: SetAttr validity bitmask bit for mtime. -/
def FATTR_MTIME : Nat := 32

/-- Modelled from the spec: SetAttr validity bitmask bit for the file handle. -/
def FATTR_FH : Nat := 64

/-- Modelled from the spec: release-flags bit selecting whether a flush
accompanies release. -/
def FUSE_RELEASE_FLUSH : Nat := 1

/-- Modelled from the spec: supported FUSE ABI major version of the
external `fuse-abi` crate. -/
def FUSE_KERNEL_VERSION : Nat := 7

/-- Modelled from the spec: supported FUSE ABI minor version of the
external `fuse-abi` crate (the engine's supported minor). -/
def FUSE_KERNEL_MINOR_VERSION : Nat := 8

/-- Constant `INIT_FLAGS` from src/request.rs (non-macOS): we generally support
async reads. -/
def INIT_FLAGS : Nat := FUSE_ASYNC_READ

/-- Constant `MAX_WRITE_SIZE` from src/session.rs: the max size of write requests
from the kernel (16 MiB). -/
def MAX_WRITE_SIZE : Nat := 16 * 1024 * 1024

/-- Constant `BUFFER_SIZE` from src/session.rs: size of the buffer for reading a
request from the kernel. -/
def BUFFER_SIZE : Nat := MAX_WRITE_SIZE + 4096

/-- A point in time, modelling `UNIX_EPOCH + Duration::new(sec, nsec)`. -/
structure TimeSpec where
  sec : Nat
  nsec : Nat
deriving DecidableEq, Repr

/-- Modelled from the spec: the `fuse_init_in` ABI argument struct of the
external decoder (major/minor version, requested readahead, offered
capability flags). -/
structure fuse_init_in where
  major : Nat
  minor : Nat
  max_readahead : Nat
  flags : Nat
deriving DecidableEq, Repr

/-- Struct `fuse_init_out`: the Init reply payload built in src/request.rs. -/
structure fuse_init_out where
  major : Nat
  minor : Nat
  max_readahead : Nat
  flags : Nat
  unused : Nat
  max_write : Nat
deriving DecidableEq, Repr

/-- Modelled from the spec: `fuse_forget_in` (lookup-count decrement). -/
structure fuse_forget_in where
  nlookup : Nat
deriving DecidableEq, Repr

/-- Modelled from the spec: `fuse_setattr_in` (validity bitmask plus the
optional attribute fields; non-macOS field set). -/
structure fuse_setattr_in where
  valid : Nat
  mode : Nat
  uid : Nat
  gid : Nat
  size : Nat
  atime : Nat
  atimensec : Nat
  mtime : Nat
  mtimensec : Nat
  fh : Nat
deriving DecidableEq, Repr

/-- Modelled from the spec: `fuse_mknod_in`. -/
structure fuse_mknod_in where
  mode : Nat
  rdev : Nat
deriving DecidableEq, Repr

/-- Modelled from the spec: `fuse_mkdir_in`. -/
structure fuse_mkdir_in where
  mode : Nat
deriving DecidableEq, Repr

/-- Modelled from the spec: `fuse_rename_in` (the cross-directory operand). -/
structure fuse_rename_in where
  newdir : Nat
deriving DecidableEq, Repr

/-- Modelled from the spec: `fuse_link_in`. -/
structure fuse_link_in where
  oldnodeid : Nat
deriving DecidableEq, Repr

/-- Modelled from the spec: `fuse_open_in` (flags and mode). -/
structure fuse_open_in where
  flags : Nat
  mode : Nat
deriving DecidableEq, Repr

/-- Modelled from the spec: `fuse_read_in`. -/
structure fuse_read_in where
  fh : Nat
  offset : Nat
  size : Nat
deriving DecidableEq, Repr

/-- Modelled from the spec: `fuse_write_in` (offset, flags, declared size
of the byte payload). -/
structure fuse_write_in where
  fh : Nat
  offset : Nat
  size : Nat
  write_flags : Nat
deriving DecidableEq, Repr

/-- Modelled from the spec: `fuse_flush_in`. -/
structure fuse_flush_in where
  fh : Nat
  lock_owner : Nat
deriving DecidableEq, Repr

/-- Modelled from the spec: `fuse_release_in`. -/
structure fuse_release_in where
  fh : Nat
  flags : Nat
  release_flags : Nat
  lock_owner : Nat
deriving DecidableEq, Repr

/-- Modelled from the spec: `fuse_fsync_in`. -/
structure fuse_fsync_in where
  fh : Nat
  fsync_flags : Nat
deriving DecidableEq, Repr

/-- Modelled from the spec: `fuse_setxattr_in` (declared size of the
value payload, flags). -/
structure fuse_setxattr_in where
  size : Nat
  flags : Nat
deriving DecidableEq, Repr

/-- Modelled from the spec: `fuse_getxattr_in` (kernel-declared buffer size). -/
structure fuse_getxattr_in where
  size : Nat
deriving DecidableEq, Repr

/-- Modelled from the spec: `fuse_access_in`. -/
structure fuse_access_in where
  mask : Nat
deriving DecidableEq, Repr

/-- Modelled from the spec: the nested `fuse_file_lock` descriptor
(`end` is a reserved word in Lean, hence `end_`). -/
structure fuse_file_lock where
  start : Nat
  end_ : Nat
  typ : Nat
  pid : Nat
deriving DecidableEq, Repr

/-- Modelled from the spec: `fuse_lk_in` (file handle, owner, nested lock
descriptor). -/
structure fuse_lk_in where
  fh : Nat
  owner : Nat
  lk : fuse_file_lock
deriving DecidableEq, Repr

/-- Modelled from the spec: `fuse_bmap_in`. -/
structure fuse_bmap_in where
  blocksize : Nat
  block : Nat
deriving DecidableEq, Repr

/-- Modelled from the spec: `fuse_interrupt_in`. -/
structure fuse_interrupt_in where
  unique : Nat
deriving DecidableEq, Repr

/-- Modelled from the spec: the closed set of decoded operation variants
(`ll::Operation`), one per FUSE opcode consumed by the dispatcher, each
carrying exactly the fields that opcode's kernel ABI struct defines
(non-macOS variant set; byte payloads are lists of bytes, names are
strings). -/
inductive Operation where
  | Init (arg : fuse_init_in)
  | Destroy
  | Interrupt (arg : fuse_interrupt_in)
  | Lookup (name : String)
  | Forget (arg : fuse_forget_in)
  | GetAttr
  | SetAttr (arg : fuse_setattr_in)
  | ReadLink
  | MkNod (arg : fuse_mknod_in) (name : String)
  | MkDir (arg : fuse_mkdir_in) (name : String)
  | Unlink (name : String)
  | RmDir (name : String)
  | SymLink (name : String) (link : String)
  | Rename (arg : fuse_rename_in) (name : String) (newname : String)
  | Link (arg : fuse_link_in) (name : String)
  | Open (arg : fuse_open_in)
  | Read (arg : fuse_read_in)
  | Write (arg : fuse_write_in) (data : List Nat)
  | Flush (arg : fuse_flush_in)
  | Release (arg : fuse_release_in)
  | FSync (arg : fuse_fsync_in)
  | OpenDir (arg : fuse_open_in)
  | ReadDir (arg : fuse_read_in)
  | ReleaseDir (arg : fuse_release_in)
  | FSyncDir (arg : fuse_fsync_in)
  | StatFs
  | SetXAttr (arg : fuse_setxattr_in) (name : String) (value : List Nat)
  | GetXAttr (arg : fuse_getxattr_in) (name : String)
  | ListXAttr (arg : fuse_getxattr_in)
  | RemoveXAttr (name : String)
  | Access (arg : fuse_access_in)
  | Create (arg : fuse_open_in) (name : String)
  | GetLk (arg : fuse_lk_in)
  | SetLk (arg : fuse_lk_in)
  | SetLkW (arg : fuse_lk_in)
  | BMap (arg : fuse_bmap_in)
deriving DecidableEq, Repr

/-- The session-lifecycle fields of `Session` from src/session.rs:
negotiated protocol version and the two lifecycle booleans. (Atomics are
modelled as plain values under explicit state passing.) -/
structure SessionState where
  proto_major : Nat
  proto_minor : Nat
  initialized : Bool
  destroyed : Bool
deriving DecidableEq, Repr

/-- Constructor `Session::new` from src/session.rs, restricted to its lifecycle
fields: both protocol version numbers start at 0 and both flags start
false. -/
def SessionState.new : SessionState :=
  { proto_major := 0, proto_minor := 0, initialized := false, destroyed := false }

/-- Struct `Request` from src/request.rs: one decoded in-flight kernel message
(header fields plus the decoded operation). -/
structure Request where
  unique : Nat
  nodeid : Nat
  uid : Nat
  gid : Nat
  pid : Nat
  op : Operation
deriving DecidableEq, Repr

/-- The `u64 as i64` cast used for the file offsets in src/request.rs. -/
def u64_as_i64 (n : Nat) : Int :=
  if n % 2 ^ 64 < 2 ^ 63 then ((n % 2 ^ 64 : Nat) : Int)
  else ((n % 2 ^ 64 : Nat) : Int) - 2 ^ 64

/-- One invocation of a filesystem capability method, with the translated
arguments the dispatcher passes to it (reply sinks omitted; non-macOS
method set). -/
inductive FsCall where
  | init
  | destroy
  | lookup (parent : Nat) (name : String)
  | forget (nodeid : Nat) (nlookup : Nat)
  | getattr (nodeid : Nat)
  | setattr (nodeid : Nat) (mode uid gid size : Option Nat)
      (atime mtime : Option TimeSpec) (fh : Option Nat)
      (crtime chgtime bkuptime : Option TimeSpec) (flags : Option Nat)
  | readlink (nodeid : Nat)
  | mknod (parent : Nat) (name : String) (mode rdev : Nat)
  | mkdir (parent : Nat) (name : String) (mode : Nat)
  | unlink (parent : Nat) (name : String)
  | rmdir (parent : Nat) (name : String)
  | symlink (parent : Nat) (name : String) (link : String)
  | rename (parent : Nat) (name : String) (newparent : Nat) (newname : String)
  | link (oldnodeid newparent : Nat) (newname : String)
  | open (nodeid flags : Nat)
  | read (nodeid fh : Nat) (offset : Int) (size : Nat)
  | write (nodeid fh : Nat) (offset : Int) (data : List Nat) (write_flags : Nat)
  | flush (nodeid fh lock_owner : Nat)
  | release (nodeid fh flags lock_owner : Nat) (flush : Bool)
  | fsync (nodeid fh : Nat) (datasync : Bool)
  | opendir (nodeid flags : Nat)
  | readdir (nodeid fh : Nat) (offset : Int)
  | releasedir (nodeid fh flags : Nat)
  | fsyncdir (nodeid fh : Nat) (datasync : Bool)
  | statfs (nodeid : Nat)
  | setxattr (nodeid : Nat) (name : String) (value : List Nat) (flags position : Nat)
  | getxattr (nodeid : Nat) (name : String) (size : Nat)
  | listxattr (nodeid size : Nat)
  | removexattr (nodeid : Nat) (name : String)
  | access (nodeid mask : Nat)
  | create (parent : Nat) (name : String) (mode flags : Nat)
  | getlk (nodeid fh owner start end_ typ pid : Nat)
  | setlk (nodeid fh owner start end_ typ pid : Nat) (sleep : Bool)
  | bmap (nodeid blocksize block : Nat)
deriving DecidableEq, Repr

/-- An observable side effect of dispatching one request, in order:
construction of a reply object for the request's unique id (`newReply`,
covering `req.reply()` and `ReplyDirectory::new`), bytes sent to the
transport (`sendError`/`sendOk`/`sendInit`), and a filesystem capability
method invocation (`call`). -/
inductive Event where
  | newReply
  | sendError (errno : Nat)
  | sendOk
  | sendInit (out : fuse_init_out)
  | call (c : FsCall)
deriving DecidableEq, Repr

/-- Function `Request::dispatch_other` from src/request.rs (non-macOS): translate
the decoded operation's arguments and invoke the matching capability
method. The `assert!` statements on the Write and SetXAttr payload
lengths are modelled by returning `none` (a panic: no reply, no
invocation); every other arm returns its event trace. -/
def Request.dispatch_other (req : Request) : Option (List Event) :=
  match req.op with
  | .Lookup name => some [.newReply, .call (.lookup req.nodeid name)]
  | .Forget arg => some [.call (.forget req.nodeid arg.nlookup)]
  | .GetAttr => some [.newReply, .call (.getattr req.nodeid)]
  | .SetAttr arg =>
      let mode := if arg.valid &&& FATTR_MODE = 0 then none else some arg.mode
      let uid := if arg.valid &&& FATTR_UID = 0 then none else some arg.uid
      let gid := if arg.valid &&& FATTR_GID = 0 then none else some arg.gid
      let size := if arg.valid &&& FATTR_SIZE = 0 then none else some arg.size
      let atime := if arg.valid &&& FATTR_ATIME = 0 then none
        else some (TimeSpec.mk arg.atime arg.atimensec)
      let mtime := if arg.valid &&& FATTR_MTIME = 0 then none
        else some (TimeSpec.mk arg.mtime arg.mtimensec)
      let fh := if arg.valid &&& FATTR_FH = 0 then none else some arg.fh
      some [.newReply, .call (.setattr req.nodeid mode uid gid size atime mtime fh
        none none none none)]
  | .ReadLink => some [.newReply, .call (.readlink req.nodeid)]
  | .MkNod arg name => some [.newReply, .call (.mknod req.nodeid name arg.mode arg.rdev)]
  | .MkDir arg name => some [.newReply, .call (.mkdir req.nodeid name arg.mode)]
  | .Unlink name => some [.newReply, .call (.unlink req.nodeid name)]
  | .RmDir name => some [.newReply, .call (.rmdir req.nodeid name)]
  | .SymLink name link => some [.newReply, .call (.symlink req.nodeid name link)]
  | .Rename arg name newname =>
      some [.newReply, .call (.rename req.nodeid name arg.newdir newname)]
  | .Link arg name => some [.newReply, .call (.link arg.oldnodeid req.nodeid name)]
  | .Open arg => some [.newReply, .call (.open req.nodeid arg.flags)]
  | .Read arg =>
      some [.newReply, .call (.read req.nodeid arg.fh (u64_as_i64 arg.offset) arg.size)]
  | .Write arg data =>
      if data.length = arg.size then
        some [.newReply, .call (.write req.nodeid arg.fh (u64_as_i64 arg.offset)
          data arg.write_flags)]
      else none
  | .Flush arg => some [.newReply, .call (.flush req.nodeid arg.fh arg.lock_owner)]
  | .Release arg =>
      let flush := decide (¬ arg.release_flags &&& FUSE_RELEASE_FLUSH = 0)
      some [.newReply, .call (.release req.nodeid arg.fh arg.flags arg.lock_owner flush)]
  | .FSync arg =>
      let datasync := decide (¬ arg.fsync_flags &&& 1 = 0)
      some [.newReply, .call (.fsync req.nodeid arg.fh datasync)]
  | .OpenDir arg => some [.newReply, .call (.opendir req.nodeid arg.flags)]
  | .ReadDir arg =>
      some [.newReply, .call (.readdir req.nodeid arg.fh (u64_as_i64 arg.offset))]
  | .ReleaseDir arg => some [.newReply, .call (.releasedir req.nodeid arg.fh arg.flags)]
  | .FSyncDir arg =>
      let datasync := decide (¬ arg.fsync_flags &&& 1 = 0)
      some [.newReply, .call (.fsyncdir req.nodeid arg.fh datasync)]
  | .StatFs => some [.newReply, .call (.statfs req.nodeid)]
  | .SetXAttr arg name value =>
      if value.length = arg.size then
        some [.newReply, .call (.setxattr req.nodeid name value arg.flags 0)]
      else none
  | .GetXAttr arg name => some [.newReply, .call (.getxattr req.nodeid name arg.size)]
  | .ListXAttr arg => some [.newReply, .call (.listxattr req.nodeid arg.size)]
  | .RemoveXAttr name => some [.newReply, .call (.removexattr req.nodeid name)]
  | .Access arg => some [.newReply, .call (.access req.nodeid arg.mask)]
  | .Create arg name =>
      some [.newReply, .call (.create req.nodeid name arg.mode arg.flags)]
  | .GetLk arg =>
      some [.newReply, .call (.getlk req.nodeid arg.fh arg.owner arg.lk.start
        arg.lk.end_ arg.lk.typ arg.lk.pid)]
  | .SetLk arg =>
      some [.newReply, .call (.setlk req.nodeid arg.fh arg.owner arg.lk.start
        arg.lk.end_ arg.lk.typ arg.lk.pid false)]
  | .SetLkW arg =>
      some [.newReply, .call (.setlk req.nodeid arg.fh arg.owner arg.lk.start
        arg.lk.end_ arg.lk.typ arg.lk.pid true)]
  | .BMap arg =>
      some [.newReply, .call (.bmap req.nodeid arg.blocksize arg.block)]
  | .Init _ => some []
  | .Destroy => some []
  | .Interrupt _ => some []

/-- Function `Request::dispatch` from src/request.rs: the lifecycle state machine,
with its match arms in source order (Init; any operation while not
initialized; Destroy; any operation while destroyed; Interrupt; all other
opcodes handed to `dispatch_other`). The filesystem's fallible init hook
is modelled by the parameter `initRes` (`none` = success, `some err` =
the error it returns). Returns the updated session state and the event
trace (`none` for the panic cases of `dispatch_other`). -/
def Request.dispatch (req : Request) (se : SessionState) (initRes : Option Nat) :
    SessionState × Option (List Event) :=
  match req.op with
  | .Init arg =>
      if arg.major < 7 ∨ (arg.major = 7 ∧ arg.minor < 6) then
        (se, some [.newReply, .sendError EPROTO])
      else
        let se1 := { se with proto_major := arg.major, proto_minor := arg.minor }
        match initRes with
        | some err => (se1, some [.newReply, .call .init, .sendError err])
        | none =>
            let out : fuse_init_out :=
              { major := FUSE_KERNEL_VERSION, minor := FUSE_KERNEL_MINOR_VERSION,
                max_readahead := arg.max_readahead, flags := arg.flags &&& INIT_FLAGS,
                unused := 0, max_write := MAX_WRITE_SIZE }
            ({ se1 with initialized := true },
              some [.newReply, .call .init, .sendInit out])
  | _ =>
      if se.initialized then
        match req.op with
        | .Destroy =>
            ({ se with destroyed := true }, some [.call .destroy, .newReply, .sendOk])
        | _ =>
            if se.destroyed then (se, some [.newReply, .sendError EIO])
            else
              match req.op with
              | .Interrupt _ => (se, some [.newReply, .sendError ENOSYS])
              | _ => (se, req.dispatch_other)
      else (se, some [.newReply, .sendError EIO])

/-- One iteration's outcome at the read step of `Session::run`: either the
channel read succeeded and `Request::new` decoded (`ok true`) or failed to
decode (`ok false`), or the read failed with the given
`raw_os_error` value. -/
inductive ReadStep where
  | ok (decoded : Bool)
  | err (errno : Option Nat)
deriving DecidableEq, Repr

/-- The result `Session::run` returns when its loop terminates. -/
inductive RunOutcome where
  | clean
  | fatal (errno : Option Nat)
deriving DecidableEq, Repr

/-- The loop of `Session::run` from src/session.rs over a finite trace of
read-step outcomes: successful decode dispatches (spawned) and loops;
decode failure breaks the loop (then `Ok(())`); read errors are classified
exactly as in the source (`ENOENT`/`EINTR`/`EAGAIN` continue, `ENODEV`
breaks with `Ok(())`, anything else returns the error). `none` means the
trace ended while the loop was still running. -/
def runLoop : List ReadStep → Option RunOutcome
  | [] => none
  | .ok true :: rest => runLoop rest
  | .ok false :: _ => some .clean
  | .err e :: rest =>
      match e with
      | some n =>
          if n = ENOENT then runLoop rest
          else if n = EINTR then runLoop rest
          else if n = EAGAIN then runLoop rest
          else if n = ENODEV then some .clean
          else some (.fatal (some n))
      | none => some (.fatal none)

/-- C6: for every operation other than Init dispatched while the session's
initialized flag is false (including Destroy), the reply sent is an I/O
error, no filesystem capability method is invoked, and no session state
changes. -/
theorem dispatch_before_init_rejects (req : Request) (se : SessionState)
    (res : Option Nat) (hop : ∀ arg, req.op ≠ .Init arg)
    (hinit : se.initialized = false) :
    req.dispatch se res = (se, some [.newReply, .sendError EIO]) := by
  obtain ⟨u, n, ui, gi, pi, op⟩ := req
  cases op
  case Init arg => exact absurd rfl (hop arg)
  all_goals simp [Request.dispatch, hinit]

/-- Witness for C6: a GetAttr dispatched on a fresh session is rejected
with an I/O error and the state is unchanged. -/
theorem dispatch_before_init_rejects_witness :
    Request.dispatch ⟨1, 1, 0, 0, 0, .GetAttr⟩ SessionState.new none
      = (SessionState.new, some [.newReply, .sendError EIO]) :=
  dispatch_before_init_rejects ⟨1, 1, 0, 0, 0, .GetAttr⟩ SessionState.new none
    (fun arg h => by cases h) rfl

/-- C4: an Init whose proposed version is unsupported (major below 7, or
major 7 with minor below 6) is replied to with EPROTO, no state field
changes and no capability method is invoked; a version-valid Init whose
init hook succeeds sets `initialized` to true, and once true the flag is
never cleared by any dispatch. -/
theorem init_version_gate (req : Request) (se : SessionState) (res : Option Nat)
    (arg : fuse_init_in) :
    (req.op = .Init arg → (arg.major < 7 ∨ (arg.major = 7 ∧ arg.minor < 6)) →
      req.dispatch se res = (se, some [.newReply, .sendError EPROTO]))
    ∧ (req.op = .Init arg → ¬(arg.major < 7 ∨ (arg.major = 7 ∧ arg.minor < 6)) →
      res = none → (req.dispatch se res).1.initialized = true)
    ∧ (se.initialized = true → (req.dispatch se res).1.initialized = true) := by
  obtain ⟨u, n, ui, gi, pi, op⟩ := req
  refine ⟨?_, ?_, ?_⟩
  · intro hop hv
    have hop2 : op = .Init arg := hop
    subst hop2
    simp [Request.dispatch, hv]
  · intro hop hv hres
    have hop2 : op = .Init arg := hop
    subst hop2
    subst hres
    simp [Request.dispatch, hv]
  · intro hinit
    obtain ⟨pm, pn, ini, des⟩ := se
    have hinit2 : ini = true := hinit
    subst hinit2
    cases res <;> cases des <;> cases op <;>
      first
        | rfl
        | (simp only [Request.dispatch]
           split <;> rfl)

/-- Witness for C4: Init with version 6.10 on a fresh session is rejected
with EPROTO and changes nothing; Init with version 7.8 on a fresh session
(init hook succeeding) yields an initialized session. -/
theorem init_version_gate_witness :
    (Request.dispatch ⟨1, 0, 0, 0, 0, .Init ⟨6, 10, 0, 0⟩⟩ SessionState.new none
      = (SessionState.new, some [.newReply, .sendError EPROTO]))
    ∧ (Request.dispatch ⟨1, 0, 0, 0, 0, .Init ⟨7, 8, 0, 0⟩⟩ SessionState.new
        none).1.initialized = true :=
  ⟨(init_version_gate ⟨1, 0, 0, 0, 0, .Init ⟨6, 10, 0, 0⟩⟩ SessionState.new none
      ⟨6, 10, 0, 0⟩).1 rfl (by decide),
   (init_version_gate ⟨1, 0, 0, 0, 0, .Init ⟨7, 8, 0, 0⟩⟩ SessionState.new none
      ⟨7, 8, 0, 0⟩).2.1 rfl (by decide) rfl⟩

/-- C5: for every successful Init exchange, the reply's capability flags
equal the kernel-offered flags AND the engine's `INIT_FLAGS` constant,
the reported max write size equals `MAX_WRITE_SIZE` (16 MiB) regardless of
the request, and the requested readahead size is echoed back verbatim. -/
theorem init_success_reply (req : Request) (se : SessionState)
    (arg : fuse_init_in) (hop : req.op = .Init arg)
    (hv : ¬(arg.major < 7 ∨ (arg.major = 7 ∧ arg.minor < 6))) :
    (req.dispatch se none).2 = some [.newReply, .call .init,
      .sendInit { major := FUSE_KERNEL_VERSION,
                  minor := FUSE_KERNEL_MINOR_VERSION,
                  max_readahead := arg.max_readahead,
                  flags := arg.flags &&& INIT_FLAGS,
                  unused := 0, max_write := MAX_WRITE_SIZE }]
    ∧ MAX_WRITE_SIZE = 16 * 1024 * 1024 := by
  obtain ⟨u, n, ui, gi, pi, op⟩ := req
  subst hop
  refine ⟨?_, rfl⟩
  simp [Request.dispatch, hv]

/-- Witness for C5: Init 7.10 offering flags 0xfff and readahead 131072
is answered with flags 1 (async read only), max write 16 MiB, readahead
131072. -/
theorem init_success_reply_witness :
    (Request.dispatch ⟨1, 0, 0, 0, 0, .Init ⟨7, 10, 131072, 4095⟩⟩ SessionState.new
        none).2
      = some [.newReply, .call .init,
          .sendInit { major := FUSE_KERNEL_VERSION,
                      minor := FUSE_KERNEL_MINOR_VERSION,
                      max_readahead := 131072,
                      flags := 4095 &&& INIT_FLAGS,
                      unused := 0, max_write := MAX_WRITE_SIZE }]
    ∧ MAX_WRITE_SIZE = 16 * 1024 * 1024 :=
  init_success_reply ⟨1, 0, 0, 0, 0, .Init ⟨7, 10, 131072, 4095⟩⟩ SessionState.new
    ⟨7, 10, 131072, 4095⟩ rfl (by decide)

/-- C8: a SetAttr whose validity bitmask has only the size bit set is
translated into a setattr capability call receiving `some size` and
`none` for every other optional parameter (mode, uid, gid, atime, mtime,
file handle, and the platform-specific crtime/chgtime/bkuptime/flags,
which are always `none` on non-macOS platforms). -/
theorem setattr_size_only (req : Request) (arg : fuse_setattr_in)
    (hop : req.op = .SetAttr arg) (hv : arg.valid = FATTR_SIZE) :
    req.dispatch_other = some [.newReply,
      .call (.setattr req.nodeid none none none (some arg.size)
        none none none none none none none)] := by
  obtain ⟨u, n, ui, gi, pi, op⟩ := req
  have hop2 : op = .SetAttr arg := hop
  subst hop2
  obtain ⟨valid, mode, uid, gid, size, atime, atimensec, mtime, mtimensec, fh⟩ := arg
  have hv2 : valid = 8 := hv
  subst hv2
  have h1 : (8 : Nat) &&& FATTR_MODE = 0 := by decide
  have h2 : (8 : Nat) &&& FATTR_UID = 0 := by decide
  have h3 : (8 : Nat) &&& FATTR_GID = 0 := by decide
  have h4 : ¬((8 : Nat) &&& FATTR_SIZE = 0) := by decide
  have h5 : (8 : Nat) &&& FATTR_ATIME = 0 := by decide
  have h6 : (8 : Nat) &&& FATTR_MTIME = 0 := by decide
  have h7 : (8 : Nat) &&& FATTR_FH = 0 := by decide
  simp [Request.dispatch_other, h1, h2, h3, h4, h5, h6, h7]

/-- Witness for C8: a SetAttr with validity mask 8 (size only) and size
4096 yields a setattr call with `some 4096` and all other options `none`. -/
theorem setattr_size_only_witness :
    Request.dispatch_other
        ⟨1, 1, 0, 0, 0, .SetAttr ⟨8, 1, 2, 3, 4096, 5, 6, 7, 8, 9⟩⟩
      = some [.newReply,
          .call (.setattr 1 none none none (some 4096)
            none none none none none none none)] :=
  setattr_size_only ⟨1, 1, 0, 0, 0, .SetAttr ⟨8, 1, 2, 3, 4096, 5, 6, 7, 8, 9⟩⟩
    ⟨8, 1, 2, 3, 4096, 5, 6, 7, 8, 9⟩ rfl rfl

/-- C9: for Write (and SetXAttr), a trailing payload whose length differs
from the size declared in the opcode-specific header triggers the
assertion failure (modelled as `none`: a panic, not an error reply); when
the lengths agree the assertion branch is unreachable and the capability
method receives the payload. -/
theorem write_payload_length_assertion (req req2 : Request)
    (arg : fuse_write_in) (data : List Nat)
    (xarg : fuse_setxattr_in) (xname : String) (value : List Nat)
    (hop : req.op = .Write arg data) (hop2 : req2.op = .SetXAttr xarg xname value) :
    ((data.length ≠ arg.size → req.dispatch_other = none)
      ∧ (data.length = arg.size → req.dispatch_other = some [.newReply,
          .call (.write req.nodeid arg.fh (u64_as_i64 arg.offset) data
            arg.write_flags)]))
    ∧ ((value.length ≠ xarg.size → req2.dispatch_other = none)
      ∧ (value.length = xarg.size → req2.dispatch_other = some [.newReply,
          .call (.setxattr req2.nodeid xname value xarg.flags 0)])) := by
  obtain ⟨u, n, ui, gi, pi, op⟩ := req
  obtain ⟨u2, n2, ui2, gi2, pi2, op2⟩ := req2
  subst hop
  subst hop2
  constructor
  · constructor
    · intro hne
      simp [Request.dispatch_other, hne]
    · intro heq
      simp [Request.dispatch_other, heq]
  · constructor
    · intro hne
      simp [Request.dispatch_other, hne]
    · intro heq
      simp [Request.dispatch_other, heq]

/-- Witness for C9: a Write declaring size 3 with a 2-byte payload
panics (no events at all); with a 3-byte payload the write capability
receives the payload. Likewise for SetXAttr with value length 1 vs 2. -/
theorem write_payload_length_assertion_witness :
    ((([10, 20] : List Nat).length ≠ (3 : Nat) →
        Request.dispatch_other ⟨1, 1, 0, 0, 0, .Write ⟨7, 0, 3, 0⟩ [10, 20]⟩ = none)
      ∧ (([10, 20] : List Nat).length = (3 : Nat) →
        Request.dispatch_other ⟨1, 1, 0, 0, 0, .Write ⟨7, 0, 3, 0⟩ [10, 20]⟩
          = some [.newReply, .call (.write 1 7 (u64_as_i64 0) [10, 20] 0)]))
    ∧ ((([9] : List Nat).length ≠ (2 : Nat) →
        Request.dispatch_other
          ⟨2, 1, 0, 0, 0, .SetXAttr ⟨2, 0⟩ (String.mk ['a']) [9]⟩ = none)
      ∧ (([9] : List Nat).length = (2 : Nat) →
        Request.dispatch_other
          ⟨2, 1, 0, 0, 0, .SetXAttr ⟨2, 0⟩ (String.mk ['a']) [9]⟩
          = some [.newReply,
              .call (.setxattr 1 (String.mk ['a']) [9] 0 0)])) :=
  write_payload_length_assertion
    ⟨1, 1, 0, 0, 0, .Write ⟨7, 0, 3, 0⟩ [10, 20]⟩
    ⟨2, 1, 0, 0, 0, .SetXAttr ⟨2, 0⟩ (String.mk ['a']) [9]⟩
    ⟨7, 0, 3, 0⟩ [10, 20] ⟨2, 0⟩ (String.mk ['a']) [9] rfl rfl

/-- C7: classification of the error returned by the read step of
`Session::run`: ENOENT, EINTR and EAGAIN retry the loop with the same
buffer; ENODEV exits the loop cleanly with success; every other error is
fatal and returned to the caller, terminating the session. -/
theorem run_read_error_classification (e : Option Nat) (rest : List ReadStep) :
    ((e = some ENOENT ∨ e = some EINTR ∨ e = some EAGAIN) →
      runLoop (.err e :: rest) = runLoop rest)
    ∧ (e = some ENODEV → runLoop (.err e :: rest) = some .clean)
    ∧ ((e ≠ some ENOENT ∧ e ≠ some EINTR ∧ e ≠ some EAGAIN ∧ e ≠ some ENODEV) →
      runLoop (.err e :: rest) = some (.fatal e)) := by
  refine ⟨?_, ?_, ?_⟩
  · rintro (rfl | rfl | rfl) <;> simp [runLoop, ENOENT, EINTR, EAGAIN]
  · rintro rfl
    simp [runLoop, ENOENT, EINTR, EAGAIN, ENODEV]
  · rintro ⟨h1, h2, h3, h4⟩
    cases e with
    | none => simp [runLoop]
    | some n =>
        have g1 : ¬ n = ENOENT := fun h => h1 (by rw [h])
        have g2 : ¬ n = EINTR := fun h => h2 (by rw [h])
        have g3 : ¬ n = EAGAIN := fun h => h3 (by rw [h])
        have g4 : ¬ n = ENODEV := fun h => h4 (by rw [h])
        simp [runLoop, g1, g2, g3, g4]

/-- Witness for C7: an EINTR read error followed by a decode failure
retries and then exits cleanly; an ENODEV read error exits cleanly; an
EACCES (13) read error is fatal with that error. -/
theorem run_read_error_classification_witness :
    (runLoop [.err (some EINTR), .ok false] = runLoop [.ok false])
    ∧ (runLoop [.err (some ENODEV)] = some .clean)
    ∧ (runLoop [.err (some 13)] = some (.fatal (some 13))) :=
  ⟨(run_read_error_classification (some EINTR) [.ok false]).1 (Or.inr (Or.inl rfl)),
   (run_read_error_classification (some ENODEV) []).2.1 rfl,
   (run_read_error_classification (some 13) []).2.2 (by decide)⟩

/-- C10: `Session::run` returns success in both loop-exit cases — a read
error of the device-not-configured class and a decode failure of
`Request::new` — so the caller cannot distinguish a decode-failure
shutdown from a normal external unmount by the return value of `run`. -/
theorem run_ok_on_decode_failure_and_enodev (rest rest2 : List ReadStep) :
    runLoop (.ok false :: rest) = some .clean
    ∧ runLoop (.err (some ENODEV) :: rest2) = some .clean
    ∧ runLoop (.ok false :: rest) = runLoop (.err (some ENODEV) :: rest2) := by
  exact ⟨rfl, rfl, rfl⟩

/-- Counterexample to C1 as stated: with `initialized = true` and
`destroyed = true`, a second Destroy is NOT rejected — the match arm for
Destroy precedes the destroyed guard, so the destroy hook is invoked
again and the reply is success, not an I/O error; likewise an Init
dispatched while destroyed is handled by the Init arm (its capability
hook runs and it replies with the negotiation result, not an I/O
error). -/
theorem destroy_after_destroy_counterexample :
    Request.dispatch ⟨2, 1, 0, 0, 0, .Destroy⟩ ⟨7, 8, true, true⟩ none
      = (⟨7, 8, true, true⟩, some [.call .destroy, .newReply, .sendOk])
    ∧ (Request.dispatch ⟨3, 1, 0, 0, 0, .Init ⟨7, 8, 0, 1⟩⟩ ⟨7, 8, true, true⟩
        none).2
      = some [.newReply, .call .init,
          .sendInit { major := FUSE_KERNEL_VERSION,
                      minor := FUSE_KERNEL_MINOR_VERSION,
                      max_readahead := 0, flags := 1 &&& INIT_FLAGS,
                      unused := 0, max_write := MAX_WRITE_SIZE }] := by
  exact ⟨rfl, rfl⟩

/-- C1 as amended: for every operation other than Init and Destroy
dispatched while `destroyed` (and `initialized`) is true, the reply is an
I/O error, no capability method is invoked, and the state is unchanged;
but Destroy itself is not subject to this rule — a second Destroy invokes
the filesystem's destroy hook again and replies success. -/
theorem dispatch_after_destroy (req : Request) (se : SessionState)
    (res : Option Nat) (hinit : se.initialized = true)
    (hd : se.destroyed = true) :
    ((∀ arg, req.op ≠ .Init arg) → req.op ≠ .Destroy →
      req.dispatch se res = (se, some [.newReply, .sendError EIO]))
    ∧ (req.op = .Destroy →
      req.dispatch se res = (se, some [.call .destroy, .newReply, .sendOk])) := by
  obtain ⟨u, n, ui, gi, pi, op⟩ := req
  obtain ⟨pm, pn, ini, des⟩ := se
  have hinit2 : ini = true := hinit
  have hd2 : des = true := hd
  subst hinit2
  subst hd2
  constructor
  · intro hop hne
    cases op
    case Init arg => exact absurd rfl (hop arg)
    case Destroy => exact absurd rfl hne
    all_goals rfl
  · intro hop
    have hop2 : op = .Destroy := hop
    subst hop2
    rfl

/-- Witness for the amended C1: on a destroyed session, GetAttr is
rejected with an I/O error and the state is unchanged, while Destroy runs
the destroy hook again and replies success. -/
theorem dispatch_after_destroy_witness :
    Request.dispatch ⟨4, 1, 0, 0, 0, .GetAttr⟩ ⟨7, 8, true, true⟩ none
      = (⟨7, 8, true, true⟩, some [.newReply, .sendError EIO])
    ∧ Request.dispatch ⟨5, 1, 0, 0, 0, .Destroy⟩ ⟨7, 8, true, true⟩ none
      = (⟨7, 8, true, true⟩, some [.call .destroy, .newReply, .sendOk]) :=
  ⟨(dispatch_after_destroy ⟨4, 1, 0, 0, 0, .GetAttr⟩ ⟨7, 8, true, true⟩ none
      rfl rfl).1 (fun arg h => by cases h) (by intro h; cases h),
   (dispatch_after_destroy ⟨5, 1, 0, 0, 0, .Destroy⟩ ⟨7, 8, true, true⟩ none
      rfl rfl).2 rfl⟩

/-- Counterexample to C2 as stated: the dispatcher writes
`proto_major`/`proto_minor` after the version check but BEFORE invoking
the filesystem's init hook, so an Init whose init hook fails (here with
EIO) leaves `proto_major = 7` (not 0) on a session that never became
initialized; and a second version-valid Init after a successful first one
overwrites the negotiation (`proto_minor` becomes 19). -/
theorem proto_overwrite_counterexample :
    ((Request.dispatch ⟨1, 0, 0, 0, 0, .Init ⟨7, 8, 0, 0⟩⟩ SessionState.new
        (some EIO)).1.proto_major = 7
      ∧ (Request.dispatch ⟨1, 0, 0, 0, 0, .Init ⟨7, 8, 0, 0⟩⟩ SessionState.new
          (some EIO)).1.initialized = false)
    ∧ (Request.dispatch ⟨2, 0, 0, 0, 0, .Init ⟨7, 19, 0, 0⟩⟩
        (Request.dispatch ⟨1, 0, 0, 0, 0, .Init ⟨7, 8, 0, 0⟩⟩ SessionState.new
          none).1 none).1.proto_minor = 19 := by
  exact ⟨⟨rfl, rfl⟩, rfl⟩

/-- C2 as amended: `proto_major`/`proto_minor` are 0 at construction and
are written by every Init that passes version validation — before the
init hook runs, hence also when the init hook fails, and again on any
later version-valid Init; a version-rejected Init and every non-Init
operation leave them unchanged. -/
theorem proto_version_update (req : Request) (se : SessionState)
    (res : Option Nat) :
    (SessionState.new.proto_major = 0 ∧ SessionState.new.proto_minor = 0)
    ∧ (∀ arg, req.op = .Init arg →
        (¬(arg.major < 7 ∨ (arg.major = 7 ∧ arg.minor < 6)) →
          (req.dispatch se res).1.proto_major = arg.major
            ∧ (req.dispatch se res).1.proto_minor = arg.minor)
        ∧ ((arg.major < 7 ∨ (arg.major = 7 ∧ arg.minor < 6)) →
          (req.dispatch se res).1 = se))
    ∧ ((∀ arg, req.op ≠ .Init arg) →
        (req.dispatch se res).1.proto_major = se.proto_major
          ∧ (req.dispatch se res).1.proto_minor = se.proto_minor) := by
  obtain ⟨u, n, ui, gi, pi, op⟩ := req
  refine ⟨⟨rfl, rfl⟩, ?_, ?_⟩
  · intro arg hop
    have hop2 : op = .Init arg := hop
    subst hop2
    constructor
    · intro hv
      cases res <;> simp [Request.dispatch, hv]
    · intro hv
      simp [Request.dispatch, hv]
  · intro hop
    cases op
    case Init arg => exact absurd rfl (hop arg)
    all_goals
      obtain ⟨pm, pn, ini, des⟩ := se
      cases res <;> cases ini <;> cases des <;> exact ⟨rfl, rfl⟩

/-- Witness for the amended C2: a version-valid Init (7.9) whose init
hook fails with EIO still records version 7.9, and a Destroy on an
initialized session leaves the version fields unchanged. -/
theorem proto_version_update_witness :
    ((Request.dispatch ⟨1, 0, 0, 0, 0, .Init ⟨7, 9, 0, 0⟩⟩ SessionState.new
        (some EIO)).1.proto_major = 7
      ∧ (Request.dispatch ⟨1, 0, 0, 0, 0, .Init ⟨7, 9, 0, 0⟩⟩ SessionState.new
          (some EIO)).1.proto_minor = 9)
    ∧ ((Request.dispatch ⟨2, 0, 0, 0, 0, .Destroy⟩ ⟨7, 9, true, false⟩
        none).1.proto_major = (⟨7, 9, true, false⟩ : SessionState).proto_major
      ∧ (Request.dispatch ⟨2, 0, 0, 0, 0, .Destroy⟩ ⟨7, 9, true, false⟩
          none).1.proto_minor = (⟨7, 9, true, false⟩ : SessionState).proto_minor) :=
  ⟨((proto_version_update ⟨1, 0, 0, 0, 0, .Init ⟨7, 9, 0, 0⟩⟩ SessionState.new
      (some EIO)).2.1 ⟨7, 9, 0, 0⟩ rfl).1 (by decide),
   (proto_version_update ⟨2, 0, 0, 0, 0, .Destroy⟩ ⟨7, 9, true, false⟩
      none).2.2 (fun arg h => by cases h)⟩

/-- Counterexample to C3 as stated: a Forget dispatched while the session
is not initialized is handled by the lifecycle rejection arm — a reply
object is constructed and an I/O error is sent for its unique id, and the
forget capability method is not invoked — so it is not true of every
dispatched operation that a reply is sent exactly when the operation is
not Forget. -/
theorem forget_uninitialized_reply_counterexample :
    Request.dispatch ⟨1, 1, 0, 0, 0, .Forget ⟨1⟩⟩ SessionState.new none
      = (SessionState.new, some [.newReply, .sendError EIO]) := by
  exact rfl

/-- C3 as amended: for every operation dispatched in the normal state
(`initialized` true, `destroyed` false) whose dispatch completes with an
event trace, a reply object is constructed exactly when the operation is
not Forget; for Forget, the forget capability method is invoked and the
trace holds nothing else — no reply object and no bytes sent for that
unique id. (Before initialization or after destroy, a Forget is instead
rejected with an I/O error reply like any other operation.) -/
theorem forget_replyless (req : Request) (se : SessionState) (res : Option Nat)
    (evs : List Event) (hinit : se.initialized = true)
    (hd : se.destroyed = false) (h : (req.dispatch se res).2 = some evs) :
    (Event.newReply ∈ evs ↔ ∀ arg, req.op ≠ .Forget arg)
    ∧ (∀ arg, req.op = .Forget arg →
        evs = [.call (.forget req.nodeid arg.nlookup)]) := by
  obtain ⟨u, n, ui, gi, pi, op⟩ := req
  obtain ⟨pm, pn, ini, des⟩ := se
  have hinit2 : ini = true := hinit
  have hd2 : des = false := hd
  subst hinit2
  subst hd2
  cases op
  case Init arg =>
    simp only [Request.dispatch] at h
    split at h
    · simp at h
      subst h
      simp
    · cases res <;>
        · simp at h
          subst h
          simp
  case Write arg data =>
    simp [Request.dispatch, Request.dispatch_other] at h
    obtain ⟨hlen, h⟩ := h
    subst h
    simp
  case SetXAttr arg xn value =>
    simp [Request.dispatch, Request.dispatch_other] at h
    obtain ⟨hlen, h⟩ := h
    subst h
    simp
  all_goals
    (simp [Request.dispatch, Request.dispatch_other] at h
     subst h
     simp)

/-- Witness for the amended C3: on an initialized session, a Forget with
lookup-count 5 produces exactly one event, the forget capability call,
with no reply object. -/
theorem forget_replyless_witness :
    (Event.newReply ∈ [Event.call (.forget 1 5)] ↔
      ∀ arg, (⟨1, 1, 0, 0, 0, .Forget ⟨5⟩⟩ : Request).op ≠ .Forget arg)
    ∧ (∀ arg, (⟨1, 1, 0, 0, 0, .Forget ⟨5⟩⟩ : Request).op = .Forget arg →
        [Event.call (.forget 1 5)]
          = [.call (.forget (⟨1, 1, 0, 0, 0, .Forget ⟨5⟩⟩ : Request).nodeid
              arg.nlookup)]) :=
  forget_replyless ⟨1, 1, 0, 0, 0, .Forget ⟨5⟩⟩ ⟨7, 8, true, false⟩ none
    [Event.call (.forget 1 5)] rfl rfl rfl

end AsyncFuse
